import Mathlib

/-!
Verification development for the MongoDB backup scheduler and retention
engine implemented in `backup.js`.  The file gives a shallow embedding of
the configuration parsing, cadence classification (`determineBackupType`),
retention cleanup (`cleanupOldBackups`), deterministic folder naming
(`generateBackupFolderName`), the mongodump statistics parser
(`parseBackupStats`), the backup coordinator (`performBackup`), the
startup backfill (`checkAndCreateMissingBackups`) and a small labelled
transition system for the run-lock discipline, together with theorems
checking the natural-language specification against these definitions.
-/

namespace MongoBackup

/-- The four backup cadences handled by the scheduler. -/
inductive BType where
  | daily
  | weekly
  | monthly
  | yearly
deriving Repr, DecidableEq

/-- Terminal status of a backup attempt (the store only ever receives
settled rows: `success` or `failed`). -/
inductive BStatus where
  | success
  | failed
deriving Repr, DecidableEq

/-- A calendar date, as produced by SQLite's `date(timestamp)` or
moment's `format('YYYY-MM-DD')`. -/
structure Date where
  y : Nat
  m : Nat
  d : Nat
deriving Repr, DecidableEq

/-- Numeric key mirroring lexicographic comparison of the zero-padded
`YYYY-MM-DD` string (for in-range months and days the two orders agree). -/
def Date.key (dt : Date) : Nat :=
  (dt.y * 100 + dt.m) * 100 + dt.d

/-- A wall-clock date-time with one-second resolution, the precision of
both the stored ISO timestamps and the backup folder names. -/
structure DateTime where
  y : Nat
  m : Nat
  d : Nat
  hh : Nat
  mi : Nat
  ss : Nat
deriving Repr, DecidableEq

/-- Numeric key mirroring lexicographic comparison of the fixed-width
ISO-8601 timestamp text (all rows carry the same timezone offset, so the
offset suffix never influences the comparison). -/
def DateTime.key (t : DateTime) : Nat :=
  ((((t.y * 100 + t.m) * 100 + t.d) * 100 + t.hh) * 100 + t.mi) * 100 + t.ss

/-- The calendar-date part of a timestamp, as SQLite's `date(...)`. -/
def DateTime.dateOf (t : DateTime) : Date :=
  ⟨t.y, t.m, t.d⟩

/-- The fields of a timezone-aware "now" that `backup.js` reads off a
moment object: `hour()`, `minute()`, `date()`, `dayOfYear()`, `day()`
(0 = Sunday), plus the underlying date-time. -/
structure Moment where
  year : Nat
  month : Nat
  day : Nat
  hour : Nat
  minute : Nat
  second : Nat
  dayOfYear : Nat
  dayOfWeek : Nat
deriving Repr, DecidableEq

/-- The date-time carried by a moment value. -/
def Moment.toDateTime (t : Moment) : DateTime :=
  ⟨t.year, t.month, t.day, t.hour, t.minute, t.second⟩

/-- The calendar date carried by a moment value. -/
def Moment.dateOf (t : Moment) : Date :=
  ⟨t.year, t.month, t.day⟩

/-- JavaScript `parseInt` on the text of an environment variable:
leading whitespace is skipped, then an optional sign followed by the
longest digit prefix is read; `none` models `NaN`. -/
def jsParseInt (s : String) : Option Int :=
  let digitsVal : List Char → Option Nat := fun cs =>
    match cs with
    | [] => none
    | c :: _ =>
        if c.isDigit then
          some ((cs.takeWhile Char.isDigit).foldl
            (fun a c => a * 10 + (c.toNat - 48)) 0)
        else none
  match s.data.dropWhile Char.isWhitespace with
  | '-' :: rest => (digitsVal rest).map (fun n => -(n : Int))
  | '+' :: rest => (digitsVal rest).map (fun n => (n : Int))
  | cs => (digitsVal cs).map (fun n => (n : Int))

/-- The `parseInt(process.env.X) || dflt` idiom used for every numeric
setting in `backup.js`: an unset variable (`none`), unparsable text
(`NaN`) and a parsed value of `0` (which is falsy in JavaScript, as is
`-0`) all fall back to the default. -/
def jsParseIntOr (s : Option String) (dflt : Int) : Int :=
  match s.bind jsParseInt with
  | none => dflt
  | some v => if v = 0 then dflt else v

/-- The numeric environment variables the scheduler and retention engine
read, as raw optional strings. -/
structure EnvVars where
  maxDailyBackups : Option String
  numberOfWeeklyBackups : Option String
  maxAgeOfWeeklyBackups : Option String
  numberOfMonthlyBackups : Option String
  maxAgeOfMonthlyBackups : Option String
  numberOfYearlyBackups : Option String
  maxAgeOfYearlyBackups : Option String

/-- The parsed configuration constants of `backup.js` (lines 29-35). -/
structure Config where
  maxDaily : Int
  weeklyCount : Int
  maxAgeWeekly : Int
  monthlyCount : Int
  maxAgeMonthly : Int
  yearlyCount : Int
  maxAgeYearly : Int
deriving Repr, DecidableEq

/-- Environment parsing exactly as in `backup.js` lines 29-35, with the
source's defaults. -/
def configOfEnv (e : EnvVars) : Config where
  maxDaily := jsParseIntOr e.maxDailyBackups (-1)
  weeklyCount := jsParseIntOr e.numberOfWeeklyBackups 7
  maxAgeWeekly := jsParseIntOr e.maxAgeOfWeeklyBackups 4
  monthlyCount := jsParseIntOr e.numberOfMonthlyBackups 12
  maxAgeMonthly := jsParseIntOr e.maxAgeOfMonthlyBackups 12
  yearlyCount := jsParseIntOr e.numberOfYearlyBackups 5
  maxAgeYearly := jsParseIntOr e.maxAgeOfYearlyBackups 5

/-- The startup validation of `MAX_DAILY_BACKUPS` (`backup.js` lines
50-53): the process exits fatally iff the parsed constant equals `0`. -/
def maxDailyStartupFatal (e : EnvVars) : Bool :=
  (configOfEnv e).maxDaily == 0

/-- The weekly slot interval `Math.round(24 / (NUMBER_OF_WEEKLY_BACKUPS / 7))`
of `backup.js` lines 247-250, in exact arithmetic: for `0 < n`,
`Math.round(168 / n) = ⌊168 / n + 1 / 2⌋ = (336 + n) / (2 * n)` in natural
division (JavaScript's `Math.round` rounds halves up). -/
def slotIntervalHours (n : Nat) : Nat :=
  (336 + n) / (2 * n)

/-- `determineBackupType` (`backup.js` lines 228-256): yearly on Jan 1 at
a midnight tick, else monthly on the 1st at a midnight tick, else weekly
when the hour falls on a slot boundary at minute 0, else daily.  When the
rounded slot interval is `0` (only for `NUMBER_OF_WEEKLY_BACKUPS > 336`),
JavaScript evaluates `hour % 0` to `NaN`, which never compares equal to
`0`, so the weekly branch is not taken; the `slot ≠ 0` conjunct models
that. -/
def determineBackupType (cfg : Config) (now : Moment) : BType :=
  if 0 < cfg.yearlyCount ∧ now.dayOfYear = 1 ∧ now.hour = 0 ∧ now.minute = 0 then
    .yearly
  else if 0 < cfg.monthlyCount ∧ now.day = 1 ∧ now.hour = 0 ∧ now.minute = 0 then
    .monthly
  else if 0 < cfg.weeklyCount ∧ now.minute = 0 ∧
      slotIntervalHours cfg.weeklyCount.toNat ≠ 0 ∧
      now.hour % slotIntervalHours cfg.weeklyCount.toNat = 0 then
    .weekly
  else
    .daily

/-- One row of the `backups` metadata table (`backup.js` lines 70-84):
`id` is assigned by the store's AUTOINCREMENT (modelled as a plain field,
increasing in insertion order). -/
structure BackupRecord where
  id : Nat
  ts : DateTime
  btype : BType
  folderName : String
  dbName : String
  status : BStatus
  duration : Nat
  collections : Nat
  documents : Nat
  indexes : Nat
  errorMessage : Option String
  sizeBytes : Nat
deriving Repr, DecidableEq

/-- Left-pad a two-digit component as `String(x).padStart(2, '0')`. -/
def pad2 (n : Nat) : String :=
  (if n < 10 then "0" else "") ++ toString n

/-- `generateBackupFolderName` (`backup.js` lines 111-121): the folder
name is built from the wall-clock instant at which the function is called
(`new Date()` inside the function, modelled as the explicit `clock`
argument) and the database name; the year is emitted unpadded, the other
components padded to two digits. -/
def generateBackupFolderName (clock : DateTime) (dbName : String) : String :=
  toString clock.y ++ pad2 clock.m ++ pad2 clock.d ++ "_" ++
    pad2 clock.hh ++ pad2 clock.mi ++ pad2 clock.ss ++ "_" ++ dbName

/-- Best-effort statistics parsed from mongodump output. -/
structure BackupStats where
  collections : Nat
  documents : Nat
  indexes : Nat
deriving Repr, DecidableEq

/-- Whether a line contains the substring `done dumping`, as JavaScript's
`line.includes('done dumping')`. -/
def lineMentionsDoneDumping (line : String) : Bool :=
  1 < (line.splitOn "done dumping").length

/-- `parseBackupStats` (`backup.js` lines 144-163): the stats start at
`{collections: 0, documents: 0, indexes: 0}` and the loop over the output
lines only ever increments `collections` (once per line containing
`done dumping`); `documents` and `indexes` are never assigned again. -/
def parseBackupStats (stdout : String) : BackupStats where
  collections := ((stdout.splitOn "\n").filter lineMentionsDoneDumping).length
  documents := 0
  indexes := 0

/-- Gregorian leap year. -/
def isLeap (y : Nat) : Bool :=
  (y % 4 == 0 && y % 100 != 0) || y % 400 == 0

/-- Days in a Gregorian month. -/
def daysInMonth (y m : Nat) : Nat :=
  if m = 2 then (if isLeap y then 29 else 28)
  else if m = 4 ∨ m = 6 ∨ m = 9 ∨ m = 11 then 30
  else 31

/-- The previous calendar day. -/
def Date.pred (dt : Date) : Date :=
  if 1 < dt.d then ⟨dt.y, dt.m, dt.d - 1⟩
  else if 1 < dt.m then ⟨dt.y, dt.m - 1, daysInMonth dt.y (dt.m - 1)⟩
  else ⟨dt.y - 1, 12, 31⟩

/-- Subtract `n` calendar days (moment's `subtract(n, 'days')`; a week
subtraction is `7 * k` days). -/
def subDays (dt : Date) : Nat → Date
  | 0 => dt
  | n + 1 => (subDays dt n).pred

/-- moment's `subtract(k, 'months')`: month arithmetic with the
day-of-month clamped to the length of the target month. -/
def subMonthsClamp (dt : Date) (k : Nat) : Date :=
  let total := dt.y * 12 + (dt.m - 1) - k
  let y := total / 12
  let m := total % 12 + 1
  ⟨y, m, min dt.d (daysInMonth y m)⟩

/-- moment's `subtract(k, 'years')`: the day-of-month is clamped
(Feb 29 minus a year becomes Feb 28). -/
def subYearsClamp (dt : Date) (k : Nat) : Date :=
  ⟨dt.y - k, dt.m, min dt.d (daysInMonth (dt.y - k) dt.m)⟩

/-- The age-based cutoff date
`moment().tz(TZ).subtract(maxAge, unit).format('YYYY-MM-DD')`
(`backup.js` line 299), where the unit is weeks, months or years
according to the cadence. -/
def ageCutoff (cad : BType) (maxAge : Nat) (now : Date) : Date :=
  match cad with
  | .weekly => subDays now (7 * maxAge)
  | .monthly => subMonthsClamp now maxAge
  | .yearly => subYearsClamp now maxAge
  | .daily => now

/-- Insert a record into a list sorted by timestamp descending, keeping
the record after every strictly newer one and before the first one whose
timestamp is less than or equal to its own.  Applied by `sortByTsDesc`
to rows in table-scan (ascending `id`) order this matches the behaviour
of SQLite's external sorter for `ORDER BY timestamp DESC`: the sorter is
fed rows in scan order and ties between equal keys surface in that
order (the SQL itself leaves the order of equal timestamps unspecified). -/
def insertTsDesc (r : BackupRecord) : List BackupRecord → List BackupRecord
  | [] => [r]
  | x :: xs =>
      if x.ts.key ≤ r.ts.key then r :: x :: xs else x :: insertTsDesc r xs

/-- Stable sort by timestamp descending over rows in insertion order. -/
def sortByTsDesc : List BackupRecord → List BackupRecord
  | [] => []
  | x :: xs => insertTsDesc x (sortByTsDesc xs)

/-- The row set of the daily-retention query (`backup.js` lines 266-271):
`type = 'daily' AND status = 'success' AND date(timestamp) = today`,
`ORDER BY timestamp DESC`, evaluated over the table in insertion order. -/
def dailyQueryRows (today : Date) (rows : List BackupRecord) : List BackupRecord :=
  sortByTsDesc (rows.filter fun r =>
    r.btype == .daily && r.status == .success && r.ts.dateOf == today)

/-- Count-based daily retention (`backup.js` lines 263-288): when
`MAX_DAILY_BACKUPS > 0` and today's successful daily rows exceed it, the
rows beyond the first `MAX_DAILY_BACKUPS` of the query result are
deleted (`rows.slice(MAX_DAILY_BACKUPS)`); the returned list is the set
of records whose artifact directories are removed. -/
def cleanupDaily (maxDaily : Int) (today : Date) (rows : List BackupRecord) :
    List BackupRecord :=
  if 0 < maxDaily then
    let sorted := dailyQueryRows today rows
    if maxDaily.toNat < sorted.length then sorted.drop maxDaily.toNat else []
  else []

/-- The rows matched by the age-based deletion query (`backup.js` lines
301-304): `type = cad AND date(timestamp) < cutoff` — note there is no
status filter, records of any status are matched. -/
def agedRows (cad : BType) (cutoff : Date) (rows : List BackupRecord) :
    List BackupRecord :=
  rows.filter fun r => r.btype == cad && r.ts.dateOf.key < cutoff.key

/-- Age-based retention for one cadence (`backup.js` lines 290-316):
active only when the configured max age is positive; deletes every row of
the cadence whose timestamp date is strictly before the cutoff. -/
def cleanupByAge (cad : BType) (maxAge : Int) (now : Date)
    (rows : List BackupRecord) : List BackupRecord :=
  if 0 < maxAge then agedRows cad (ageCutoff cad maxAge.toNat now) rows
  else []

/-- `cleanupOldBackups` (`backup.js` lines 261-321): the daily branch
runs only after a daily backup, and each age-based branch only after a
backup of its own cadence (`backupType === config.type`).  Returns the
records whose artifact directories the cleanup removes. -/
def cleanupOldBackups (cfg : Config) (backupType : BType) (now : Date)
    (rows : List BackupRecord) : List BackupRecord :=
  match backupType with
  | .daily => cleanupDaily cfg.maxDaily now rows
  | .weekly => cleanupByAge .weekly cfg.maxAgeWeekly now rows
  | .monthly => cleanupByAge .monthly cfg.maxAgeMonthly now rows
  | .yearly => cleanupByAge .yearly cfg.maxAgeYearly now rows

/-- The externally observable effects of one `performBackup` call:
the records inserted into the store, the artifact directories created,
the records whose directories retention deletes, whether retention ran,
and the value of the run flag after the call returns. -/
structure RunEffects where
  newRecords : List BackupRecord
  dirsCreated : List String
  deletions : List BackupRecord
  cleanupInvoked : Bool
  isRunningAfter : Bool
deriving Repr, DecidableEq

/-- `performBackup` (`backup.js` lines 326-468) as a big-step function
over its external inputs.  `running` is the value of `isBackupRunning`
observed by the guard at line 327; `clockStart` and `clockCatch` are the
wall-clock readings of the two separate `new Date()` calls inside
`generateBackupFolderName` at lines 362 and 448; `dump` is the outcome
of the mongodump subprocess (`.error` for a non-zero exit or a launch
failure, both of which reject the exec promise after the backup
directory has been created at line 374); `bsonCount` is the number of
`.bson` files found in the dump directory, `dirSize` the recursive
directory size, and `newId` the id the store assigns to the inserted
row.  On success the retention cleanup runs over the table including the
freshly inserted row; on failure no cleanup runs.  The `finally` block
at lines 464-467 clears the run flag on both exit paths. -/
def performBackup (cfg : Config) (dbName : String) (running : Bool)
    (typeArg : Option BType) (now : Moment)
    (clockStart clockCatch : DateTime) (dump : Except String String)
    (bsonCount dirSize duration durationFail newId : Nat)
    (rows : List BackupRecord) : RunEffects :=
  if running then ⟨[], [], [], false, true⟩
  else
    let btype := typeArg.getD (determineBackupType cfg now)
    let folderName := generateBackupFolderName clockStart dbName
    match dump with
    | .ok stdout =>
        let stats := parseBackupStats stdout
        let record : BackupRecord :=
          ⟨newId, now.toDateTime, btype, folderName, dbName, .success,
            duration, bsonCount, stats.documents, stats.indexes, none, dirSize⟩
        ⟨[record], [folderName],
          cleanupOldBackups cfg btype now.dateOf (rows ++ [record]), true, false⟩
    | .error msg =>
        let folderCatch := generateBackupFolderName clockCatch dbName
        let record : BackupRecord :=
          ⟨newId, now.toDateTime, btype, folderCatch, dbName, .failed,
            durationFail, 0, 0, 0, some msg, 0⟩
        ⟨[record], [folderName], [], false, false⟩

/-- moment's `startOf('week')` (locale weeks begin on Sunday): step back
`dayOfWeek` days and reset the time to midnight. -/
def startOfWeekDT (now : Moment) : DateTime :=
  let d := subDays now.dateOf now.dayOfWeek
  ⟨d.y, d.m, d.d, 0, 0, 0⟩

/-- moment's `startOf('month')`. -/
def startOfMonthDT (now : Moment) : DateTime :=
  ⟨now.year, now.month, 1, 0, 0, 0⟩

/-- moment's `startOf('year')`. -/
def startOfYearDT (now : Moment) : DateTime :=
  ⟨now.year, 1, 1, 0, 0, 0⟩

/-- The backfill existence query (`backup.js` lines 487-493 and
analogues): is there at least one `success` row of the cadence with
`datetime(timestamp) >= datetime(periodStart)`? -/
def hasSuccessSince (rows : List BackupRecord) (cad : BType)
    (since : DateTime) : Bool :=
  rows.any fun r =>
    r.btype == cad && r.status == .success && since.key ≤ r.ts.key

/-- One cadence check of `checkAndCreateMissingBackups`: if the cadence
is enabled and the existence query over the current table finds no
`success` row since the period start, `performBackup` is run for that
cadence immediately, its inserted row appended to the table and the
cadence recorded as triggered; otherwise nothing happens. -/
def backfillFor (cfg : Config) (dbName : String) (now : Moment)
    (clockStart clockCatch : DateTime) (dump : Except String String)
    (bsonCount dirSize duration durationFail newId : Nat)
    (st : List BType × List BackupRecord) (cad : BType) (enabled : Bool)
    (since : DateTime) : List BType × List BackupRecord :=
  if enabled && !(hasSuccessSince st.2 cad since) then
    let eff := performBackup cfg dbName false (some cad) now
      clockStart clockCatch dump bsonCount dirSize duration
      durationFail newId st.2
    (st.1 ++ [cad], st.2 ++ eff.newRecords)
  else st

/-- `checkAndCreateMissingBackups` (`backup.js` lines 473-541): when a
backup is already running the check is deferred (retried later, no
effect now); otherwise weekly, monthly and yearly are examined in order,
each enabled cadence with no `success` row since its current period
start triggering an immediate `performBackup` of that cadence.  Each
triggered backup's inserted row is visible to the subsequent queries.
`dumpOf` gives the dump outcome of a backup triggered for each cadence;
the remaining parameters are threaded to `performBackup`.  Returns the
list of triggered cadences and the resulting table. -/
def checkAndCreateMissingBackups (cfg : Config) (running : Bool)
    (dbName : String) (now : Moment) (clockStart clockCatch : DateTime)
    (dumpOf : BType → Except String String)
    (bsonCount dirSize duration durationFail newId : Nat)
    (rows : List BackupRecord) : List BType × List BackupRecord :=
  if running then ([], rows)
  else
    let s1 := backfillFor cfg dbName now clockStart clockCatch
      (dumpOf .weekly) bsonCount dirSize duration durationFail newId
      ([], rows) .weekly (decide (0 < cfg.weeklyCount)) (startOfWeekDT now)
    let s2 := backfillFor cfg dbName now clockStart clockCatch
      (dumpOf .monthly) bsonCount dirSize duration durationFail newId
      s1 .monthly (decide (0 < cfg.monthlyCount)) (startOfMonthDT now)
    backfillFor cfg dbName now clockStart clockCatch
      (dumpOf .yearly) bsonCount dirSize duration durationFail newId
      s2 .yearly (decide (0 < cfg.yearlyCount)) (startOfYearDT now)

/-- Labels of the atomic steps of the run-lock transition system. -/
inductive SchedLabel where
  | skipL
  | acquireL
  | mkdirL
  | settleL
deriving Repr, DecidableEq

/-- Abstract state of the scheduler: how many trigger tasks are pending
(about to enter `performBackup`), have acquired the lock but not yet
created their directory, are working (directory created, dump running or
settling), have finished, or were skipped; plus the `isBackupRunning`
flag and the cumulative counts of inserted records and created
directories. -/
structure SchedState where
  isRunning : Bool
  pending : Nat
  locked : Nat
  working : Nat
  finished : Nat
  skipped : Nat
  records : Nat
  dirs : Nat
deriving Repr, DecidableEq

/-- Atomic steps of concurrently fired cadence triggers funnelling
through `performBackup`.  JavaScript's event loop runs each synchronous
block atomically; the guard at line 327 and the assignment
`isBackupRunning = true` at line 337 sit in one such block, so `skipL`
and `acquireL` are single steps.  `mkdirL` covers the directory creation
at line 374 (same synchronous block in the source, modelled separately
so that the lock acquisition itself has no other effect), and `settleL`
covers settling (record insertion) together with the `finally` block,
which clears the flag on both the success and the failure path. -/
inductive SchedStep : SchedLabel → SchedState → SchedState → Prop where
  | skip (s : SchedState) (n : Nat) (hp : s.pending = n + 1)
      (hr : s.isRunning = true) :
      SchedStep .skipL s { s with pending := n, skipped := s.skipped + 1 }
  | acquire (s : SchedState) (n : Nat) (hp : s.pending = n + 1)
      (hr : s.isRunning = false) :
      SchedStep .acquireL s
        { s with pending := n, locked := s.locked + 1, isRunning := true }
  | mkdirStep (s : SchedState) (n : Nat) (hl : s.locked = n + 1) :
      SchedStep .mkdirL s
        { s with locked := n, working := s.working + 1, dirs := s.dirs + 1 }
  | settle (s : SchedState) (n : Nat) (hw : s.working = n + 1) :
      SchedStep .settleL s
        { s with working := n, finished := s.finished + 1,
                 records := s.records + 1, isRunning := false }

/-- Reachability from a given initial state by any interleaving of
steps. -/
inductive SchedReach (init : SchedState) : SchedState → Prop where
  | refl : SchedReach init init
  | tail {s t : SchedState} (l : SchedLabel) :
      SchedReach init s → SchedStep l s t → SchedReach init t

/-- Initial state: `n` pending triggers, lock free, nothing recorded. -/
def initState (n : Nat) : SchedState :=
  ⟨false, n, 0, 0, 0, 0, 0, 0⟩

/-- Number of `performBackup` bodies currently mid-flight. -/
def SchedState.inFlight (s : SchedState) : Nat :=
  s.locked + s.working

/-- Modelled from the spec's words, for refinement comparison with
`insertTsDesc` only: insertion step of the ordering the spec asserts for
the daily retention query, timestamp descending with ties broken by `id`
descending. -/
def insertTsIdDesc (r : BackupRecord) :
    List BackupRecord → List BackupRecord
  | [] => [r]
  | x :: xs =>
      if x.ts.key < r.ts.key ∨ (x.ts.key = r.ts.key ∧ x.id ≤ r.id) then
        r :: x :: xs
      else x :: insertTsIdDesc r xs

/-- Modelled from the spec's words: sort by timestamp descending, ties
broken by `id` descending. -/
def sortTsIdDesc : List BackupRecord → List BackupRecord
  | [] => []
  | x :: xs => insertTsIdDesc x (sortTsIdDesc xs)

/-- Modelled from the spec's words: the deletions daily retention would
perform if the query result were ordered by timestamp descending with
ties broken by `id` descending, as the spec asserts. -/
def specDailyDeleted (maxDaily : Int) (today : Date)
    (rows : List BackupRecord) : List BackupRecord :=
  if 0 < maxDaily then
    let sorted := sortTsIdDesc (rows.filter fun r =>
      r.btype == .daily && r.status == .success && r.ts.dateOf == today)
    if maxDaily.toNat < sorted.length then sorted.drop maxDaily.toNat
    else []
  else []

/-! Concrete fixtures used by witnesses and counterexamples. -/

/-- The configuration obtained from an empty environment (the source's
defaults at `backup.js` lines 29-35). -/
def cfgDefault : Config :=
  ⟨-1, 7, 4, 12, 12, 5, 5⟩

/-- A configuration with every cadence enabled and daily retention at 3,
as in the spec's daily-retention scenario. -/
def cfgAllOn : Config :=
  ⟨3, 7, 4, 12, 12, 5, 5⟩

/-- A moment on May 1, 2024 at 12:00:00 (day-of-year 122, Wednesday). -/
def mMay1 : Moment :=
  ⟨2024, 5, 1, 12, 0, 0, 122, 3⟩

/-- The current calendar day of the daily-retention scenario. -/
def dayJune10 : Date :=
  ⟨2025, 6, 10⟩

/-- Successful daily record number `i` of the scenario day, timestamped
at hour `hh` (all timestamps distinct). -/
def dRec (i hh : Nat) : BackupRecord :=
  ⟨i, ⟨2025, 6, 10, hh, 0, 0⟩, .daily, "daily" ++ toString i, "mydb",
    .success, 60, 3, 0, 0, none, 1000⟩

/-- First-inserted of two records sharing one timestamp. -/
def tieRecA : BackupRecord :=
  ⟨1, ⟨2025, 6, 10, 7, 0, 0⟩, .daily, "tieA", "mydb", .success, 60, 3,
    0, 0, none, 1000⟩

/-- Second-inserted of two records sharing one timestamp. -/
def tieRecB : BackupRecord :=
  ⟨2, ⟨2025, 6, 10, 7, 0, 0⟩, .daily, "tieB", "mydb", .success, 60, 3,
    0, 0, none, 1000⟩

/-- A weekly record dated 2025-02-01, the last day of week 5 of 2025. -/
def wkRecFeb1 : BackupRecord :=
  ⟨1, ⟨2025, 2, 1, 0, 0, 0⟩, .weekly, "wk5", "mydb", .success, 60, 3,
    0, 0, none, 1000⟩

/-- A weekly record dated 2025-02-02, the first day of week 6 of 2025. -/
def wkRecFeb2 : BackupRecord :=
  ⟨2, ⟨2025, 2, 2, 0, 0, 0⟩, .weekly, "wk6", "mydb", .success, 60, 3,
    0, 0, none, 1000⟩

/-- An environment with every variable unset. -/
def envUnset : EnvVars :=
  ⟨none, none, none, none, none, none, none⟩

/-- An environment that sets only `MAX_DAILY_BACKUPS`. -/
def envMaxDailyIs (s : String) : EnvVars :=
  { envUnset with maxDailyBackups := some s }

/-- An environment that sets only `MAX_AGE_OF_WEEKLY_BACKUPS`. -/
def envWeeklyAgeIs (s : String) : EnvVars :=
  { envUnset with maxAgeOfWeeklyBackups := some s }

/-! Helper lemmas. -/

/-- Membership is preserved by the sorted insertion step. -/
theorem mem_insertTsDesc {x r : BackupRecord} {l : List BackupRecord} :
    x ∈ insertTsDesc r l ↔ x = r ∨ x ∈ l := by
  induction l with
  | nil => simp [insertTsDesc]
  | cons y ys ih =>
      by_cases h : y.ts.key ≤ r.ts.key
      · simp [insertTsDesc, h]
      · simp [insertTsDesc, h, ih]
        tauto

/-- The timestamp-descending sort permutes its input: same members. -/
theorem mem_sortByTsDesc {x : BackupRecord} {l : List BackupRecord} :
    x ∈ sortByTsDesc l ↔ x ∈ l := by
  induction l with
  | nil => simp [sortByTsDesc]
  | cons y ys ih => simp [sortByTsDesc, mem_insertTsDesc, ih]

/-! Theorems for the claims. -/

/-- C10: in every persisted record, `documentsCount` and `indexesCount`
are exactly `0`: `parseBackupStats` only ever counts `done dumping`
lines into `collections`, and both the success path (which copies
`stats.documents` and `stats.indexes`) and the failure path (which
writes literal zeros) of `performBackup` persist zero for both
counters. -/
theorem c10_zero_document_index_counters :
    (∀ stdout : String, (parseBackupStats stdout).documents = 0 ∧
      (parseBackupStats stdout).indexes = 0) ∧
    (∀ (cfg : Config) (dbName : String) (running : Bool)
      (typeArg : Option BType) (now : Moment) (cS cC : DateTime)
      (dump : Except String String) (b d du dF nid : Nat)
      (rows : List BackupRecord),
      ((performBackup cfg dbName running typeArg now cS cC dump b d du dF
          nid rows).newRecords.all
        fun r => r.documents == 0 && r.indexes == 0) = true) := by
  refine ⟨fun _ => ⟨rfl, rfl⟩, ?_⟩
  intro cfg dbName running typeArg now cS cC dump b d du dF nid rows
  cases running
  · cases dump <;> simp [performBackup, parseBackupStats]
  · simp [performBackup]

/-- C6: the startup check `MAX_DAILY_BACKUPS === 0` at `backup.js` line
50 is unreachable: `parseInt(env) || -1` maps both an unset or
unparsable value and the (falsy) parsed value `0` to `-1`, so the
parsed constant is never `0` and configuring `0` silently yields
unlimited retention instead of the fatal exit; negative values such as
`-5` are likewise accepted without any exit. -/
theorem c6_zero_max_daily_validation_unreachable :
    (∀ s : Option String, jsParseIntOr s (-1) ≠ 0) ∧
    (configOfEnv (envMaxDailyIs "0")).maxDaily = -1 ∧
    maxDailyStartupFatal (envMaxDailyIs "0") = false ∧
    (configOfEnv (envMaxDailyIs "-5")).maxDaily = -5 ∧
    maxDailyStartupFatal (envMaxDailyIs "-5") = false := by
  refine ⟨?_, by decide, by decide, by decide, by decide⟩
  intro s
  unfold jsParseIntOr
  cases s.bind jsParseInt with
  | none => decide
  | some v =>
      dsimp only
      split
      · decide
      · next h => exact h

/-- C9: on the failure path `performBackup` recomputes the folder name
from a fresh wall clock (`backup.js` line 448), so when the dump fails
five seconds after the attempt started, the `failed` record's
`folderName` differs from the name of the directory created for the
same attempt. -/
theorem c9_failure_record_folder_name_mismatch :
    (performBackup cfgDefault "mydb" false (some .daily) mMay1
        ⟨2024, 5, 1, 12, 0, 0⟩ ⟨2024, 5, 1, 12, 0, 5⟩
        (.error "mongodump exited 1") 0 0 5 5 1 []).dirsCreated =
      ["20240501_120000_mydb"] ∧
    ((performBackup cfgDefault "mydb" false (some .daily) mMay1
        ⟨2024, 5, 1, 12, 0, 0⟩ ⟨2024, 5, 1, 12, 0, 5⟩
        (.error "mongodump exited 1") 0 0 5 5 1 []).newRecords.map
      fun r => r.folderName) = ["20240501_120005_mydb"] ∧
    ("20240501_120005_mydb" : String) ≠ "20240501_120000_mydb" := by
  refine ⟨rfl, rfl, by decide⟩

/-- C3 (amended): a dump failure produces exactly one new record, which
is `failed`; one artifact directory was created for the attempt (before
the dump ran) and may remain; no prior artifact is deleted; retention is
not invoked; and the run flag is false afterward. -/
theorem c3_failure_isolation_amended (cfg : Config) (dbName : String)
    (typeArg : Option BType) (now : Moment) (cS cC : DateTime)
    (msg : String) (b d du dF nid : Nat) (rows : List BackupRecord) :
    let eff := performBackup cfg dbName false typeArg now cS cC
      (.error msg) b d du dF nid rows
    eff.newRecords.length = 1 ∧
    (eff.newRecords.all fun r => r.status == .failed) = true ∧
    eff.dirsCreated.length = 1 ∧
    eff.deletions = [] ∧
    eff.cleanupInvoked = false ∧
    eff.isRunningAfter = false := by
  simp [performBackup]

/-- C3 (counterexample): the claim's "zero new artifact directories" on
a dump failure is false — the directory is created at `backup.js` line
374 before the dump is invoked, so a failing attempt leaves one new
directory. -/
theorem c3_failure_isolation_counterexample :
    (performBackup cfgDefault "mydb" false (some .daily) mMay1
        ⟨2024, 5, 1, 12, 0, 0⟩ ⟨2024, 5, 1, 12, 0, 5⟩
        (.error "mongodump exited 1") 0 0 5 5 1 []).dirsCreated.length ≠
      0 := by
  decide

/-- C4 (counterexample): with two of today's successful daily records
sharing one timestamp and `MAX_DAILY_BACKUPS = 1`, the query result in
scan order deletes the later-inserted record (`id` 2), while the claim's
asserted ordering — ties broken by `id` descending — would delete the
earlier-inserted one (`id` 1); the claim's tie-break does not match the
code. -/
theorem c4_daily_tie_order_counterexample :
    cleanupDaily 1 dayJune10 [tieRecA, tieRecB] = [tieRecB] ∧
    specDailyDeleted 1 dayJune10 [tieRecA, tieRecB] = [tieRecA] ∧
    tieRecB ≠ tieRecA := by
  refine ⟨rfl, rfl, by decide⟩

/-- C4 (amended): with `MAX_DAILY_BACKUPS = 3` and five successful daily
records for the current day with distinct timestamps, newest-first
`[r5, r4, r3, r2, r1]`, retention deletes exactly `[r2, r1]`; ties
between equal timestamps surface in insertion (ascending `id`) order, so
with two tied records and a limit of 1 the later-inserted one is
deleted; and every deleted record is a successful daily record of the
current day. -/
theorem c4_daily_retention_amended :
    cleanupDaily 3 dayJune10
        [dRec 1 1, dRec 2 2, dRec 3 3, dRec 4 4, dRec 5 5] =
      [dRec 2 2, dRec 1 1] ∧
    cleanupDaily 1 dayJune10 [tieRecA, tieRecB] = [tieRecB] ∧
    (∀ (maxDaily : Int) (today : Date) (rows : List BackupRecord),
      ((cleanupDaily maxDaily today rows).all fun r =>
        r.btype == .daily && r.status == .success &&
          r.ts.dateOf == today) = true) := by
  refine ⟨rfl, rfl, ?_⟩
  intro maxDaily today rows
  rw [List.all_eq_true]
  intro r hr
  simp only [cleanupDaily, dailyQueryRows] at hr
  split at hr
  · split at hr
    · have hmem := List.mem_of_mem_drop hr
      rw [mem_sortByTsDesc] at hmem
      exact (List.mem_filter.mp hmem).2
    · simp at hr
  · simp at hr

/-- C5: age-based retention is strict — when the configured max age is
positive, a record of the cadence is deleted iff its timestamp date is
strictly before `now` minus the max age in the cadence's unit; with a
max age of 4 weeks and now = 2025-03-02 (first day of week 10 of 2025),
the cutoff is 2025-02-02, the week-5 record dated 2025-02-01 is deleted
and the week-6 record dated 2025-02-02 is kept. -/
theorem c5_age_retention_strict (cad : BType) (maxAge : Int) (now : Date)
    (rows : List BackupRecord) (r : BackupRecord) (h : 0 < maxAge) :
    (r ∈ cleanupByAge cad maxAge now rows ↔
      r ∈ rows ∧ r.btype = cad ∧
        r.ts.dateOf.key < (ageCutoff cad maxAge.toNat now).key) ∧
    ageCutoff .weekly 4 ⟨2025, 3, 2⟩ = ⟨2025, 2, 2⟩ ∧
    cleanupByAge .weekly 4 ⟨2025, 3, 2⟩ [wkRecFeb1, wkRecFeb2] =
      [wkRecFeb1] := by
  refine ⟨?_, rfl, rfl⟩
  rw [cleanupByAge, if_pos h]
  simp [agedRows, List.mem_filter, and_assoc]

/-- C5 witness at the concrete weekly boundary instance. -/
theorem c5_age_retention_strict_witness :
    (0 : Int) < 4 ∧
    (wkRecFeb1 ∈
        cleanupByAge .weekly 4 ⟨2025, 3, 2⟩ [wkRecFeb1, wkRecFeb2] ↔
      wkRecFeb1 ∈ [wkRecFeb1, wkRecFeb2] ∧ wkRecFeb1.btype = .weekly ∧
        wkRecFeb1.ts.dateOf.key <
          (ageCutoff .weekly (4 : Int).toNat ⟨2025, 3, 2⟩).key) :=
  ⟨by decide,
    (c5_age_retention_strict .weekly 4 ⟨2025, 3, 2⟩ [wkRecFeb1, wkRecFeb2]
      wkRecFeb1 (by decide)).1⟩

/-- C7 (counterexample): configuring `MAX_AGE_OF_WEEKLY_BACKUPS = 0`
does not disable age-based cleanup — `parseInt('0') || 4` yields the
default `4`, under which a sufficiently old weekly record is deleted,
contradicting the claim that a configured max age of `0` deletes
nothing. -/
theorem c7_retention_sentinels_counterexample :
    (configOfEnv (envWeeklyAgeIs "0")).maxAgeWeekly = 4 ∧
    cleanupByAge .weekly ((configOfEnv (envWeeklyAgeIs "0")).maxAgeWeekly)
        ⟨2025, 3, 2⟩ [wkRecFeb1] = [wkRecFeb1] ∧
    [wkRecFeb1] ≠ ([] : List BackupRecord) := by
  refine ⟨by decide, by decide, by decide⟩

/-- C7 (amended): `MAX_DAILY_BACKUPS = -1` disables count-based daily
retention entirely; a negative configured max age disables age-based
cleanup for the cadence; but a configured max age of `0` is replaced by
the cadence default at parse time (weekly default 4), so cleanup stays
enabled, while a negative value such as `-2` is kept and disables it. -/
theorem c7_retention_sentinels_amended :
    (∀ (today : Date) (rows : List BackupRecord),
      cleanupDaily (-1) today rows = []) ∧
    (∀ (cad : BType) (a : Int) (now : Date) (rows : List BackupRecord),
      a ≤ 0 → cleanupByAge cad a now rows = []) ∧
    (configOfEnv (envWeeklyAgeIs "-2")).maxAgeWeekly = -2 ∧
    (configOfEnv (envWeeklyAgeIs "0")).maxAgeWeekly = 4 := by
  refine ⟨?_, ?_, by decide, by decide⟩
  · intro today rows
    simp [cleanupDaily]
  · intro cad a now rows ha
    rw [cleanupByAge, if_neg (by omega)]

/-- C2: cadence classification precedence — a Jan-1 midnight tick with
all cadences enabled is classified `yearly` (never monthly, weekly or
daily); a 1st-of-month midnight tick that is not Jan 1 is `monthly`
(taking precedence over the weekly slot condition, which also holds at
midnight); and on a tick matching neither the yearly nor the monthly
guard, `weekly` is returned exactly when the minute is 0 and the hour is
divisible by `Math.round(24 / (NUMBER_OF_WEEKLY_BACKUPS / 7))`. -/
theorem c2_classification_precedence (cfg : Config) (t u v : Moment)
    (hY : 0 < cfg.yearlyCount) (hM : 0 < cfg.monthlyCount)
    (hW : 0 < cfg.weeklyCount)
    (ht : t.dayOfYear = 1 ∧ t.hour = 0 ∧ t.minute = 0)
    (hv1 : v.day = 1 ∧ v.hour = 0 ∧ v.minute = 0)
    (hv2 : v.dayOfYear ≠ 1)
    (hu1 : ¬(u.dayOfYear = 1 ∧ u.hour = 0 ∧ u.minute = 0))
    (hu2 : ¬(u.day = 1 ∧ u.hour = 0 ∧ u.minute = 0))
    (hslot : 0 < slotIntervalHours cfg.weeklyCount.toNat) :
    determineBackupType cfg t = .yearly ∧
    determineBackupType cfg v = .monthly ∧
    (determineBackupType cfg u = .weekly ↔
      u.minute = 0 ∧
        u.hour % slotIntervalHours cfg.weeklyCount.toNat = 0) := by
  refine ⟨?_, ?_, ?_⟩
  · simp only [determineBackupType]
    rw [if_pos ⟨hY, ht.1, ht.2.1, ht.2.2⟩]
  · simp only [determineBackupType]
    rw [if_neg (fun hcon => hv2 hcon.2.1),
      if_pos ⟨hM, hv1.1, hv1.2.1, hv1.2.2⟩]
  · simp only [determineBackupType]
    rw [if_neg (fun hcon => hu1 hcon.2), if_neg (fun hcon => hu2 hcon.2)]
    by_cases hC : 0 < cfg.weeklyCount ∧ u.minute = 0 ∧
        slotIntervalHours cfg.weeklyCount.toNat ≠ 0 ∧
        u.hour % slotIntervalHours cfg.weeklyCount.toNat = 0
    · rw [if_pos hC]
      exact ⟨fun _ => ⟨hC.2.1, hC.2.2.2⟩, fun _ => rfl⟩
    · rw [if_neg hC]
      refine ⟨fun hcon => (nomatch hcon), fun hrhs => ?_⟩
      exact absurd ⟨hW, hrhs.1, Nat.pos_iff_ne_zero.mp hslot, hrhs.2⟩ hC

/-- C2 witness at concrete instants: Jan 1 2025 00:00 is yearly, Feb 1
2025 00:00 is monthly, and June 10 2025 00:00 (neither guard) satisfies
the weekly characterisation. -/
theorem c2_classification_precedence_witness :
    determineBackupType cfgAllOn ⟨2025, 1, 1, 0, 0, 0, 1, 3⟩ = .yearly ∧
    determineBackupType cfgAllOn ⟨2025, 2, 1, 0, 0, 0, 32, 6⟩ =
      .monthly ∧
    (determineBackupType cfgAllOn ⟨2025, 6, 10, 0, 0, 0, 161, 2⟩ =
        .weekly ↔
      (⟨2025, 6, 10, 0, 0, 0, 161, 2⟩ : Moment).minute = 0 ∧
        (⟨2025, 6, 10, 0, 0, 0, 161, 2⟩ : Moment).hour %
          slotIntervalHours cfgAllOn.weeklyCount.toNat = 0) :=
  c2_classification_precedence cfgAllOn ⟨2025, 1, 1, 0, 0, 0, 1, 3⟩
    ⟨2025, 6, 10, 0, 0, 0, 161, 2⟩ ⟨2025, 2, 1, 0, 0, 0, 32, 6⟩
    (by decide) (by decide) (by decide) (by decide) (by decide)
    (by decide) (by decide) (by decide) (by decide)

/-- Adding rows to the table can only preserve the success of the
backfill existence query. -/
theorem hasSuccessSince_append {l l' : List BackupRecord} {cad : BType}
    {since : DateTime} (h : hasSuccessSince l cad since = true) :
    hasSuccessSince (l ++ l') cad since = true := by
  unfold hasSuccessSince at h ⊢
  rw [List.any_append, h, Bool.true_or]

/-- A backfill step for a disabled cadence, or one whose period already
has a success record, changes nothing. -/
theorem backfillFor_no_trigger {cfg : Config} {dbName : String}
    {now : Moment} {cS cC : DateTime} {dump : Except String String}
    {b d du dF nid : Nat} {st : List BType × List BackupRecord}
    {cad : BType} {enabled : Bool} {since : DateTime}
    (h : enabled = false ∨ hasSuccessSince st.2 cad since = true) :
    backfillFor cfg dbName now cS cC dump b d du dF nid st cad enabled
      since = st := by
  unfold backfillFor
  rcases h with h | h <;> rw [h] <;> simp

/-- A backfill step only ever appends rows, so any success the existence
query already sees is still seen afterwards. -/
theorem backfillFor_preserves_has {cfg : Config} {dbName : String}
    {now : Moment} {cS cC : DateTime} {dump : Except String String}
    {b d du dF nid : Nat} {st : List BType × List BackupRecord}
    {cad : BType} {enabled : Bool} {since : DateTime} {cad' : BType}
    {since' : DateTime}
    (h : hasSuccessSince st.2 cad' since' = true) :
    hasSuccessSince (backfillFor cfg dbName now cS cC dump b d du dF nid
      st cad enabled since).2 cad' since' = true := by
  unfold backfillFor
  split
  · exact hasSuccessSince_append h
  · exact h

/-- A backfill step can add at most its own cadence to the triggered
list. -/
theorem backfillFor_fst_mem {cfg : Config} {dbName : String}
    {now : Moment} {cS cC : DateTime} {dump : Except String String}
    {b d du dF nid : Nat} {st : List BType × List BackupRecord}
    {cad : BType} {enabled : Bool} {since : DateTime} {x : BType}
    (hx : x ∈ (backfillFor cfg dbName now cS cC dump b d du dF nid st
      cad enabled since).1) : x ∈ st.1 ∨ x = cad := by
  unfold backfillFor at hx
  split at hx
  · simp only [List.mem_append, List.mem_singleton] at hx
    exact hx
  · exact Or.inl hx

/-- The startup backfill with the lock free is the weekly, monthly and
yearly steps in order. -/
theorem checkAndCreateMissingBackups_eq (cfg : Config) (dbName : String)
    (now : Moment) (cS cC : DateTime)
    (dumpOf : BType → Except String String) (b d du dF nid : Nat)
    (rows : List BackupRecord) :
    checkAndCreateMissingBackups cfg false dbName now cS cC dumpOf b d du
      dF nid rows =
      backfillFor cfg dbName now cS cC (dumpOf .yearly) b d du dF nid
        (backfillFor cfg dbName now cS cC (dumpOf .monthly) b d du dF nid
          (backfillFor cfg dbName now cS cC (dumpOf .weekly) b d du dF
            nid ([], rows) .weekly (decide (0 < cfg.weeklyCount))
            (startOfWeekDT now))
          .monthly (decide (0 < cfg.monthlyCount)) (startOfMonthDT now))
        .yearly (decide (0 < cfg.yearlyCount)) (startOfYearDT now) :=
  rfl

/-- C8: whenever every enabled coarse cadence already has a `success`
record since its current period start, the startup backfill triggers
nothing and leaves the table unchanged, and running it again from the
resulting state is the same zero-action result; moreover for each single
cadence, a `success` record since that cadence's period start guarantees
that cadence is never among the triggered ones, regardless of what the
other cadences do. -/
theorem c8_backfill_idempotent (cfg : Config) (dbName : String)
    (now : Moment) (cS cC : DateTime)
    (dumpOf : BType → Except String String) (b d du dF nid : Nat)
    (rows : List BackupRecord) :
    ((0 < cfg.weeklyCount →
        hasSuccessSince rows .weekly (startOfWeekDT now) = true) →
      (0 < cfg.monthlyCount →
        hasSuccessSince rows .monthly (startOfMonthDT now) = true) →
      (0 < cfg.yearlyCount →
        hasSuccessSince rows .yearly (startOfYearDT now) = true) →
      checkAndCreateMissingBackups cfg false dbName now cS cC dumpOf b d
          du dF nid rows = ([], rows) ∧
        checkAndCreateMissingBackups cfg false dbName now cS cC dumpOf b
          d du dF nid
          (checkAndCreateMissingBackups cfg false dbName now cS cC dumpOf
            b d du dF nid rows).2 = ([], rows)) ∧
    (hasSuccessSince rows .weekly (startOfWeekDT now) = true →
      BType.weekly ∉ (checkAndCreateMissingBackups cfg false dbName now
        cS cC dumpOf b d du dF nid rows).1) ∧
    (hasSuccessSince rows .monthly (startOfMonthDT now) = true →
      BType.monthly ∉ (checkAndCreateMissingBackups cfg false dbName now
        cS cC dumpOf b d du dF nid rows).1) ∧
    (hasSuccessSince rows .yearly (startOfYearDT now) = true →
      BType.yearly ∉ (checkAndCreateMissingBackups cfg false dbName now
        cS cC dumpOf b d du dF nid rows).1) := by
  refine ⟨?_, ?_, ?_, ?_⟩
  · intro hW hM hY
    have e1 : backfillFor cfg dbName now cS cC (dumpOf .weekly) b d du dF
        nid ([], rows) .weekly (decide (0 < cfg.weeklyCount))
        (startOfWeekDT now) = ([], rows) := by
      by_cases h0 : 0 < cfg.weeklyCount
      · exact backfillFor_no_trigger (Or.inr (hW h0))
      · exact backfillFor_no_trigger (Or.inl (decide_eq_false h0))
    have e2 : backfillFor cfg dbName now cS cC (dumpOf .monthly) b d du
        dF nid ([], rows) .monthly (decide (0 < cfg.monthlyCount))
        (startOfMonthDT now) = ([], rows) := by
      by_cases h0 : 0 < cfg.monthlyCount
      · exact backfillFor_no_trigger (Or.inr (hM h0))
      · exact backfillFor_no_trigger (Or.inl (decide_eq_false h0))
    have e3 : backfillFor cfg dbName now cS cC (dumpOf .yearly) b d du dF
        nid ([], rows) .yearly (decide (0 < cfg.yearlyCount))
        (startOfYearDT now) = ([], rows) := by
      by_cases h0 : 0 < cfg.yearlyCount
      · exact backfillFor_no_trigger (Or.inr (hY h0))
      · exact backfillFor_no_trigger (Or.inl (decide_eq_false h0))
    have h1 : checkAndCreateMissingBackups cfg false dbName now cS cC
        dumpOf b d du dF nid rows = ([], rows) := by
      rw [checkAndCreateMissingBackups_eq, e1, e2, e3]
    exact ⟨h1, by rw [h1]; exact h1⟩
  · intro h hmem
    have e1 : backfillFor cfg dbName now cS cC (dumpOf .weekly) b d du dF
        nid ([], rows) .weekly (decide (0 < cfg.weeklyCount))
        (startOfWeekDT now) = ([], rows) :=
      backfillFor_no_trigger (Or.inr h)
    rw [checkAndCreateMissingBackups_eq, e1] at hmem
    rcases backfillFor_fst_mem hmem with hmem2 | hEq
    · rcases backfillFor_fst_mem hmem2 with hmem3 | hEq2
      · simp at hmem3
      · exact BType.noConfusion hEq2
    · exact BType.noConfusion hEq
  · intro h hmem
    have hp1 : hasSuccessSince (backfillFor cfg dbName now cS cC
        (dumpOf .weekly) b d du dF nid ([], rows) .weekly
        (decide (0 < cfg.weeklyCount)) (startOfWeekDT now)).2 .monthly
        (startOfMonthDT now) = true := backfillFor_preserves_has h
    have e2 : backfillFor cfg dbName now cS cC (dumpOf .monthly) b d du
        dF nid
        (backfillFor cfg dbName now cS cC (dumpOf .weekly) b d du dF nid
          ([], rows) .weekly (decide (0 < cfg.weeklyCount))
          (startOfWeekDT now))
        .monthly (decide (0 < cfg.monthlyCount)) (startOfMonthDT now) =
        backfillFor cfg dbName now cS cC (dumpOf .weekly) b d du dF nid
          ([], rows) .weekly (decide (0 < cfg.weeklyCount))
          (startOfWeekDT now) := backfillFor_no_trigger (Or.inr hp1)
    rw [checkAndCreateMissingBackups_eq, e2] at hmem
    rcases backfillFor_fst_mem hmem with hmem2 | hEq
    · rcases backfillFor_fst_mem hmem2 with hmem3 | hEq2
      · simp at hmem3
      · exact BType.noConfusion hEq2
    · exact BType.noConfusion hEq
  · intro h hmem
    have hp1 : hasSuccessSince (backfillFor cfg dbName now cS cC
        (dumpOf .weekly) b d du dF nid ([], rows) .weekly
        (decide (0 < cfg.weeklyCount)) (startOfWeekDT now)).2 .yearly
        (startOfYearDT now) = true := backfillFor_preserves_has h
    have hp2 : hasSuccessSince (backfillFor cfg dbName now cS cC
        (dumpOf .monthly) b d du dF nid
        (backfillFor cfg dbName now cS cC (dumpOf .weekly) b d du dF nid
          ([], rows) .weekly (decide (0 < cfg.weeklyCount))
          (startOfWeekDT now))
        .monthly (decide (0 < cfg.monthlyCount))
        (startOfMonthDT now)).2 .yearly (startOfYearDT now) = true :=
      backfillFor_preserves_has hp1
    have e3 : backfillFor cfg dbName now cS cC (dumpOf .yearly) b d du dF
        nid
        (backfillFor cfg dbName now cS cC (dumpOf .monthly) b d du dF nid
          (backfillFor cfg dbName now cS cC (dumpOf .weekly) b d du dF
            nid ([], rows) .weekly (decide (0 < cfg.weeklyCount))
            (startOfWeekDT now))
          .monthly (decide (0 < cfg.monthlyCount)) (startOfMonthDT now))
        .yearly (decide (0 < cfg.yearlyCount)) (startOfYearDT now) =
        backfillFor cfg dbName now cS cC (dumpOf .monthly) b d du dF nid
          (backfillFor cfg dbName now cS cC (dumpOf .weekly) b d du dF
            nid ([], rows) .weekly (decide (0 < cfg.weeklyCount))
            (startOfWeekDT now))
          .monthly (decide (0 < cfg.monthlyCount)) (startOfMonthDT now) :=
      backfillFor_no_trigger (Or.inr hp2)
    rw [checkAndCreateMissingBackups_eq, e3] at hmem
    rcases backfillFor_fst_mem hmem with hmem2 | hEq
    · rcases backfillFor_fst_mem hmem2 with hmem3 | hEq2
      · simp at hmem3
      · exact BType.noConfusion hEq2
    · exact BType.noConfusion hEq

/-- C8 witness: with one success record per coarse cadence in the
current week, month and year, the backfill at Wednesday June 11, 2025
10:00 triggers nothing, twice in a row. -/
theorem c8_backfill_idempotent_witness :
    checkAndCreateMissingBackups cfgAllOn false "mydb"
        ⟨2025, 6, 11, 10, 0, 0, 162, 3⟩ ⟨2025, 6, 11, 10, 0, 0⟩
        ⟨2025, 6, 11, 10, 0, 1⟩ (fun _ => .ok "") 3 1000 60 5 9
        [⟨1, ⟨2025, 6, 9, 0, 0, 0⟩, .weekly, "w", "mydb", .success, 60,
          3, 0, 0, none, 1000⟩,
         ⟨2, ⟨2025, 6, 2, 0, 0, 0⟩, .monthly, "m", "mydb", .success, 60,
          3, 0, 0, none, 1000⟩,
         ⟨3, ⟨2025, 1, 2, 0, 0, 0⟩, .yearly, "y", "mydb", .success, 60,
          3, 0, 0, none, 1000⟩] =
      ([],
        [⟨1, ⟨2025, 6, 9, 0, 0, 0⟩, .weekly, "w", "mydb", .success, 60,
          3, 0, 0, none, 1000⟩,
         ⟨2, ⟨2025, 6, 2, 0, 0, 0⟩, .monthly, "m", "mydb", .success, 60,
          3, 0, 0, none, 1000⟩,
         ⟨3, ⟨2025, 1, 2, 0, 0, 0⟩, .yearly, "y", "mydb", .success, 60,
          3, 0, 0, none, 1000⟩]) :=
  ((c8_backfill_idempotent cfgAllOn "mydb"
      ⟨2025, 6, 11, 10, 0, 0, 162, 3⟩ ⟨2025, 6, 11, 10, 0, 0⟩
      ⟨2025, 6, 11, 10, 0, 1⟩ (fun _ => .ok "") 3 1000 60 5 9
      [⟨1, ⟨2025, 6, 9, 0, 0, 0⟩, .weekly, "w", "mydb", .success, 60, 3,
        0, 0, none, 1000⟩,
       ⟨2, ⟨2025, 6, 2, 0, 0, 0⟩, .monthly, "m", "mydb", .success, 60, 3,
        0, 0, none, 1000⟩,
       ⟨3, ⟨2025, 1, 2, 0, 0, 0⟩, .yearly, "y", "mydb", .success, 60, 3,
        0, 0, none, 1000⟩]).1 (fun _ => by decide) (fun _ => by decide)
    (fun _ => by decide)).1

/-- One transition preserves the lock invariant: the number of attempts
holding the lock equals one exactly when the running flag is set. -/
theorem schedStep_inv {l : SchedLabel} {s t : SchedState}
    (hstep : SchedStep l s t)
    (ih : s.locked + s.working = if s.isRunning then 1 else 0) :
    t.locked + t.working = if t.isRunning then 1 else 0 := by
  cases hstep with
  | skip s n hp hr => simpa using ih
  | acquire s n hp hr =>
      rw [hr] at ih
      simp at ih ⊢
      omega
  | mkdirStep s n hl =>
      cases hR : s.isRunning <;> rw [hR] at ih <;> simp at ih ⊢ <;>
        omega
  | settle s n hw =>
      cases hR : s.isRunning <;> rw [hR] at ih <;> simp at ih ⊢ <;>
        omega

/-- The lock invariant holds in every reachable state. -/
theorem schedReach_inv {n : Nat} {s : SchedState}
    (h : SchedReach (initState n) s) :
    s.locked + s.working = if s.isRunning then 1 else 0 := by
  induction h with
  | refl => simp [initState]
  | tail l hprev hstep ih => exact schedStep_inv hstep ih

/-- C1: mutual exclusion of backup attempts — in every state reachable
from concurrently fired triggers at most one `performBackup` body is
mid-flight; a trigger arriving while the flag is set is a pure no-op
(no record, no directory, no state change, nothing queued); acquiring
the lock itself has no other effect (the flag is set before the
directory or record effects, and only succeeds when the flag was
clear); and every exit path (success and failure settle through the
same `finally`) clears the flag. -/
theorem c1_mutual_exclusion :
    (∀ (n : Nat) (s : SchedState), SchedReach (initState n) s →
      s.inFlight ≤ 1) ∧
    (∀ s t : SchedState, SchedStep .skipL s t →
      t.records = s.records ∧ t.dirs = s.dirs ∧
        t.isRunning = s.isRunning ∧ t.inFlight = s.inFlight ∧
        s.isRunning = true) ∧
    (∀ s t : SchedState, SchedStep .acquireL s t →
      t.records = s.records ∧ t.dirs = s.dirs ∧ t.isRunning = true ∧
        s.isRunning = false) ∧
    (∀ s t : SchedState, SchedStep .settleL s t →
      t.isRunning = false) := by
  refine ⟨?_, ?_, ?_, ?_⟩
  · intro n s h
    have hinv := schedReach_inv h
    show s.locked + s.working ≤ 1
    rw [hinv]
    split <;> simp
  · intro s t h
    cases h with
    | skip _ n hp hr => exact ⟨rfl, rfl, rfl, rfl, hr⟩
  · intro s t h
    cases h with
    | acquire _ n hp hr => exact ⟨rfl, rfl, rfl, hr⟩
  · intro s t h
    cases h with
    | settle _ n hw => rfl

/-- C1 witness: from two pending triggers, one acquires the lock; the
reached state has at most one attempt mid-flight; a second trigger
skipping during it changes nothing; and a settling attempt clears the
flag. -/
theorem c1_mutual_exclusion_witness :
    (⟨true, 1, 1, 0, 0, 0, 0, 0⟩ : SchedState).inFlight ≤ 1 ∧
    ((⟨true, 0, 1, 0, 0, 1, 0, 0⟩ : SchedState).records =
        (⟨true, 1, 1, 0, 0, 0, 0, 0⟩ : SchedState).records ∧
      (⟨true, 0, 1, 0, 0, 1, 0, 0⟩ : SchedState).dirs =
        (⟨true, 1, 1, 0, 0, 0, 0, 0⟩ : SchedState).dirs ∧
      (⟨true, 0, 1, 0, 0, 1, 0, 0⟩ : SchedState).isRunning =
        (⟨true, 1, 1, 0, 0, 0, 0, 0⟩ : SchedState).isRunning ∧
      (⟨true, 0, 1, 0, 0, 1, 0, 0⟩ : SchedState).inFlight =
        (⟨true, 1, 1, 0, 0, 0, 0, 0⟩ : SchedState).inFlight ∧
      (⟨true, 1, 1, 0, 0, 0, 0, 0⟩ : SchedState).isRunning = true) ∧
    ((⟨true, 1, 1, 0, 0, 0, 0, 0⟩ : SchedState).records =
        (initState 2).records ∧
      (⟨true, 1, 1, 0, 0, 0, 0, 0⟩ : SchedState).dirs =
        (initState 2).dirs ∧
      (⟨true, 1, 1, 0, 0, 0, 0, 0⟩ : SchedState).isRunning = true ∧
      (initState 2).isRunning = false) ∧
    (⟨false, 0, 0, 0, 1, 0, 1, 1⟩ : SchedState).isRunning = false :=
  ⟨c1_mutual_exclusion.1 2 ⟨true, 1, 1, 0, 0, 0, 0, 0⟩
      (SchedReach.tail .acquireL SchedReach.refl
        (SchedStep.acquire (initState 2) 1 rfl rfl)),
    c1_mutual_exclusion.2.1 ⟨true, 1, 1, 0, 0, 0, 0, 0⟩
      ⟨true, 0, 1, 0, 0, 1, 0, 0⟩
      (SchedStep.skip ⟨true, 1, 1, 0, 0, 0, 0, 0⟩ 0 rfl rfl),
    c1_mutual_exclusion.2.2.1 (initState 2) ⟨true, 1, 1, 0, 0, 0, 0, 0⟩
      (SchedStep.acquire (initState 2) 1 rfl rfl),
    c1_mutual_exclusion.2.2.2 ⟨true, 0, 0, 1, 0, 0, 0, 1⟩
      ⟨false, 0, 0, 0, 1, 0, 1, 1⟩
      (SchedStep.settle ⟨true, 0, 0, 1, 0, 0, 0, 1⟩ 0 rfl)⟩

/-- C7 witness for the hypothesis-bearing conjunct. -/
theorem c7_retention_sentinels_amended_witness :
    cleanupDaily (-1) dayJune10 [dRec 1 1] = [] ∧
    (-2 : Int) ≤ 0 ∧
    cleanupByAge .weekly (-2) ⟨2025, 3, 2⟩ [wkRecFeb1] = [] :=
  ⟨c7_retention_sentinels_amended.1 dayJune10 [dRec 1 1], by decide,
    c7_retention_sentinels_amended.2.1 .weekly (-2) ⟨2025, 3, 2⟩
      [wkRecFeb1] (by decide)⟩

end MongoBackup
